import Mathlib

/-!
# Verification of the gc-unified-lib specification against its source

This development shallowly embeds the parts of the `gc-unified-lib` JavaScript
library that the checked claims are about:

* `src/models.js` — product-family / model classification, `parseDevices`,
  `expectedResponse`, `checkErrorResponse`;
* `src/discover.js` — `splitBeacon`;
* the stream framer of `UnifiedClient.#onSocketData`;
* `src/msg_queue.js` (the `MessageQueue` class, in its newer revision that
  contains `handleResponse` with the busy-retry logic) — modelled as a
  small-step event semantics over an explicit queue state.

JavaScript strings are modelled as `List Char`; machine numbers that carry
times or timeouts as `Int`; `Map`s as association lists in insertion order.
-/

namespace GcLib

/-- JS strings are modelled as lists of characters. -/
abbrev Str := List Char

/-- Character list of a Lean string literal. -/
def str (s : String) : Str := s.data

/-- Whitespace for `String.prototype.trim`, restricted to the whitespace
characters that can occur in the ASCII line protocol (the full JS definition
also covers other Unicode whitespace, which never appears here). -/
def isJsSpace (c : Char) : Bool :=
  c = ' ' || c = '\t' || c = '\n' || c = '\r'

/-- `String.prototype.trim`: strip whitespace from both ends. -/
def jsTrim (l : Str) : Str :=
  ((l.dropWhile isJsSpace).reverse.dropWhile isJsSpace).reverse

/-- `String.prototype.split(sep)` (single-character separator, no limit).
`"".split(sep)` is `[""]`, as in JS. -/
def jsSplit (sep : Char) : Str → List Str
  | [] => [[]]
  | c :: rest =>
    if c = sep then [] :: jsSplit sep rest
    else
      match jsSplit sep rest with
      | [] => [[c]]
      | s :: ss => (c :: s) :: ss

/-- `String.prototype.lastIndexOf(c)`: index of the last occurrence, `-1` if
absent. -/
def jsLastIndexOf (c : Char) (l : Str) : Int :=
  match l.reverse.findIdx? (· = c) with
  | none => -1
  | some j => ((l.length - 1 - j : Nat) : Int)

/-- `s.replaceAll("\r", "\n")` (single-character pattern and replacement). -/
def replaceCRwithLF (l : Str) : Str :=
  l.map (fun c => if c = '\r' then '\n' else c)

/-- JS `Map.prototype.get`: first (and only) binding of a key in the
association-list model. -/
def mapGet (m : List (Str × Str)) (k : Str) : Option Str :=
  (m.find? (fun p => p.1 = k)).map (·.2)

/-- JS `Map.prototype.set`: update an existing binding in place, otherwise
append in insertion order. -/
def mapSet (m : List (Str × Str)) (k v : Str) : List (Str × Str) :=
  if m.any (fun p => p.1 = k) then
    m.map (fun p => if p.1 = k then (k, v) else p)
  else m ++ [(k, v)]

/-- Consume one expected literal character at the head of a string. -/
def expectCons (c : Char) (l : Str) : Option Str :=
  match l with
  | x :: r => if x = c then some r else none
  | [] => none

/-- Decimal digit, the JS regex class `\d`. -/
def isDigitChar (c : Char) : Bool := c.isDigit

/-- JS regex class `\w` = `[A-Za-z0-9_]`. -/
def isWordChar (c : Char) : Bool := c.isAlphanum || c = '_'

/-- Numeric value of a decimal digit string (`parseInt(s, 10)` for an all-digit
string; such a string is never `NaN`, so the source's `isNaN` guards are
unreachable for inputs matched by `(\d+)`). -/
def natOfDigits (l : Str) : Nat :=
  l.foldl (fun n c => 10 * n + (c.toNat - '0'.toNat)) 0

/-! ## `src/models.js`: product family and model classification -/

/-- `Models` map of `models.js` (version prefix ↦ model name). -/
def Models : List (Str × Str) :=
  [ (str "3.0-6", str "GC-100-06"), (str "3.0-12", str "GC-100-12"), (str "3.0-18", str "GC-100-18"),
    (str "3.1-6", str "GC-100-06"), (str "3.1-12", str "GC-100-12"), (str "3.1-18", str "GC-100-18"),
    (str "3.2-6", str "GC-100-06"), (str "3.2-12", str "GC-100-12"), (str "3.2-18", str "GC-100-18"),
    (str "710-1005-", str "iTachIP2IR"), (str "710-1009-", str "iTachIP2SL"),
    (str "710-1008-", str "iTachIP2CC"), (str "710-1001-", str "iTachWF2IR"),
    (str "710-1007-", str "iTachWF2SL"), (str "710-1010-", str "iTachWF2CC"),
    (str "710-2000-", str "Flex-WF"), (str "710-3000-", str "Flex-IP"),
    (str "710-4001-", str "Global Connect IR"), (str "710-4002-", str "Global Connect SL"),
    (str "710-4003-", str "Global Connect RL"), (str "710-4004-", str "Global Connect SW") ]

/-- `productFamilyFromVersion` of `models.js`. -/
def productFamilyFromVersion (version : Str) : Str :=
  if (str "710-1").isPrefixOf version then str "iTach"
  else if (str "710-2").isPrefixOf version || (str "710-3").isPrefixOf version then str "Flex"
  else if (str "710-4").isPrefixOf version then str "Global Connect"
  else if (str "version,").isPrefixOf version then str "GC-100"
  else str "Unknown"

/-- `modelFromVersion` of `models.js`. `version.substring(0, 9)` is `take 9`;
`version.substring(version.lastIndexOf(",") + 1)` is `drop (lastIndexOf + 1)`
(when `","` is absent `lastIndexOf` is `-1` and the drop count is `0`, exactly
JS's `substring(0)`). -/
def modelFromVersion (version : Str) : Str :=
  let model : Option Str :=
    if (str "710-").isPrefixOf version then mapGet Models (version.take 9)
    else if (str "version,").isPrefixOf version then
      mapGet Models (version.drop (jsLastIndexOf ',' version + 1).toNat)
    else none
  model.getD []

/-! ## `src/models.js`: `parseDevices` -/

/-- A `DeviceModule` of `models.js`: one (module, port) capability. -/
structure DeviceModule where
  module : Nat
  port : Nat
  portType : Str
deriving DecidableEq, Repr

/-- Fuel-indexed worker for `removeEndlist`. Each step consumes at least one
character, so the fuel-exhausted case is unreachable when the fuel is at least
the input length; the fuel only makes the recursion structural (and hence
kernel-reducible). -/
def removeEndlistAux : Nat → Str → Str
  | _, [] => []
  | 0, l => l
  | fuel + 1, c :: rest =>
    if (str "\nendlistdevices").isPrefixOf (c :: rest) then removeEndlistAux fuel (rest.drop 14)
    else c :: removeEndlistAux fuel rest

/-- `response.replaceAll("\nendlistdevices", "")`: remove every occurrence of
the 15-character pattern, scanning left to right and continuing after each
removed occurrence (JS `replaceAll` with an empty replacement). -/
def removeEndlist (l : Str) : Str :=
  removeEndlistAux l.length l

/-- The anchored regex `^(\d+),(\d+) (\w+)$` of `parseDevices` as a
deterministic matcher. The character classes are disjoint from the literal
delimiters (`,` and a space are neither digits nor word characters), so the
greedy regex is equivalent to maximal `takeWhile` runs. -/
def deviceRegexMatch (l : Str) : Option (Str × Str × Str) :=
  (expectCons ',' (l.dropWhile isDigitChar)).bind fun r2 =>
    (expectCons ' ' (r2.dropWhile isDigitChar)).bind fun w =>
      if l.takeWhile isDigitChar ≠ [] ∧ r2.takeWhile isDigitChar ≠ [] ∧ w ≠ [] ∧ w.all isWordChar
      then some (l.takeWhile isDigitChar, r2.takeWhile isDigitChar, w)
      else none

/-- The per-line body of `parseDevices`: the `deviceLines` map strips a leading
`"device,"` (`substring(7)`), then the regex match feeds the `forEach` body
that pushes `DeviceModule`s (ports `1..portCount`, or the single
`port = portCount = 0` entry). -/
def stripDevicePrefix (x : Str) : Str :=
  if (str "device,").isPrefixOf x then x.drop 7 else x

def parseDeviceLine (x : Str) : List DeviceModule :=
  match deviceRegexMatch (stripDevicePrefix x) with
  | none => []
  | some (d1, d2, w) =>
    let module := natOfDigits d1
    let portCount := natOfDigits d2
    if portCount > 0 then (List.range portCount).map (fun p => ⟨module, p + 1, w⟩)
    else [⟨module, portCount, w⟩]

/-- `parseDevices` of `models.js`: CRs to LFs, strip `"\nendlistdevices"`,
trim, split on `"\n"`, then accumulate the per-line entries. -/
def parseDevices (response : Str) : List DeviceModule :=
  let deviceLines := jsSplit '\n' (jsTrim (removeEndlist (replaceCRwithLF response)))
  deviceLines.flatMap parseDeviceLine

/-! ## `src/discover.js`: `splitBeacon` -/

/-- Regex class `[\w-]` (beacon keys). -/
def isKeyChar (c : Char) : Bool := isWordChar c || c = '-'

/-- Regex class `[\w-.:/]` (beacon values; in a non-Unicode JS class the `-`
after `\w` is literal, so the class is word chars, `-`, `.`, `:`, `/`; note
that a space is *not* in the class). -/
def isValChar (c : Char) : Bool :=
  isWordChar c || c = '-' || c = '.' || c = ':' || c = '/'

/-- Parse `([\w-]+)=` at the head of `p`: a maximal nonempty run of key
characters followed by the literal `=`. -/
def parseKeyAt (p : Str) : Option (Str × Str) :=
  if (p.takeWhile isKeyChar).isEmpty then none
  else (expectCons '=' (p.dropWhile isKeyChar)).map (fun rest => (p.takeWhile isKeyChar, rest))

/-- Parse `-?([\w-]+)=` at the head of `r0`. The only backtracking the regex
can perform is on `-?`: when consuming a leading `-` makes the rest fail, `-?`
matches empty and the dash itself is captured by `[\w-]+`. -/
def parseKeyEq (r0 : Str) : Option (Str × Str) :=
  match expectCons '-' r0 with
  | some r1 => (parseKeyAt r1).orElse (fun _ => parseKeyAt r0)
  | none => parseKeyAt r0

/-- Parse `([\w-.:/]+)>` at the head of `rest`, returning the captured value
and the remainder after `>`. -/
def parseVal (rest : Str) : Option (Str × Str) :=
  if (rest.takeWhile isValChar).isEmpty then none
  else (expectCons '>' (rest.dropWhile isValChar)).map
    (fun after => (rest.takeWhile isValChar, after))

/-- One attempted match of `<-?([\w-]+)=([\w-.:/]+)>` anchored at the head. -/
def tupleAt (l : Str) : Option ((Str × Str) × Str) :=
  (expectCons '<' l).bind fun r0 =>
    (parseKeyEq r0).bind fun kr =>
      (parseVal kr.2).map fun va => ((kr.1, va.1), va.2)

/-- Fuel-indexed worker for `beaconScan`. By `tupleAt_length` a successful
match consumes at least one character and a failed attempt advances one
character, so the fuel-exhausted case is unreachable when the fuel is at least
the input length; the fuel only makes the recursion structural (and hence
kernel-reducible). -/
def beaconScanAux : Nat → Str → List (Str × Str)
  | _, [] => []
  | 0, _ => []
  | fuel + 1, c :: rest =>
    match tupleAt (c :: rest) with
    | some (kv, after) => kv :: beaconScanAux fuel after
    | none => beaconScanAux fuel rest

/-- The global `exec` loop of `splitBeacon`: at each position try the tuple
regex; on success record the pair and continue after the match, otherwise
advance one character (the regex engine restarts the search at the next
index). -/
def beaconScan (l : Str) : List (Str × Str) :=
  beaconScanAux l.length l

/-- `splitBeacon` of `discover.js`: reject beacons without the `AMXB` prefix,
otherwise collect all regex matches into a `Map` (`result.set(k, v)` in match
order; the `match.length !== 3` guard is unreachable because the regex has
exactly two capture groups). -/
def splitBeacon (beacon : Str) : Option (List (Str × Str)) :=
  if ¬ (str "AMXB").isPrefixOf beacon then none
  else some ((beaconScan beacon).foldl (fun m kv => mapSet m kv.1 kv.2) [])

/-! ## The stream framer: `UnifiedClient.#onSocketData`

One call of the socket data handler: append the chunk to the buffer; if the
buffer contains no `\r` keep buffering; if it starts with `device,` and does
not yet end with `endlistdevices\r` keep buffering; otherwise emit
`substring(0, lastIndexOf("\r")).replaceAll("\r", "\n").trim()` and reset the
buffer to `""`. Returns the new buffer and the emitted frame, if any. -/
def framerStep (buffer data : Str) : Str × Option Str :=
  let resp := buffer ++ data
  let endIdx := jsLastIndexOf '\r' resp
  if endIdx = -1 then (resp, none)
  else if (str "device,").isPrefixOf resp && !((str "endlistdevices\r").isSuffixOf resp) then
    (resp, none)
  else ([], some (jsTrim (replaceCRwithLF (resp.take endIdx.toNat))))

/-! ## `src/models.js` (newer revision): `expectedResponse`, `checkErrorResponse` -/

/-- The `Requests` table (request command ↦ expected response prefix). -/
def RequestsTable : List (Str × Str) :=
  [ (str "getversion", str "version"), (str "getdevices", str "device"),
    (str "get_NET", str "NET"), (str "set_NET", str "NET"),
    (str "get_IR", str "IR"), (str "set_IR", str "IR"),
    (str "sendir", str "completeir"), (str "stopir", str "stopir"),
    (str "get_IRL", str "IR Learner Enabled"), (str "stop_IRL", str "IR Learner Disabled"),
    (str "receiveIR", str "receiveIR"),
    (str "get_SERIAL", str "SERIAL"), (str "set_SERIAL", str "SERIAL"),
    (str "get_RELAY", str "RELAY"), (str "set_RELAY", str "RELAY"),
    (str "getstate", str "state"), (str "setstate", str "state") ]

/-- JS truthiness of a possibly-absent string (`undefined` and `""` are
falsy). -/
def jsTruthy (o : Option Str) : Bool :=
  match o with
  | some s => !s.isEmpty
  | none => false

/-- JS string coercion of a possibly-`undefined` value, as performed by `+`
concatenation and by `String.prototype.startsWith` on a non-string argument:
`undefined` becomes the string `"undefined"`. -/
def jsToStr (o : Option Str) : Str := o.getD (str "undefined")

/-- `expectedResponse` of `models.js`: `message.trim().split(",", 3)`, look the
command up in `Requests`, and append the connector (and for `sendir` the
correlation id). An unknown command with a connector yields the literal
`"undefined,<connector>"` via JS string coercion; an unknown command without
one yields `undefined` (here `none`). -/
def expectedResponse (message : Str) : Option Str :=
  let parts := (jsSplit ',' (jsTrim message)).take 3
  let msg := mapGet RequestsTable (parts.headD [])
  let connector := parts.get? 1
  if parts.headD [] = str "sendir" ∧ jsTruthy (parts.get? 2) = true then
    some (jsToStr msg ++ [','] ++ connector.getD [] ++ [','] ++ (parts.get? 2).getD [])
  else if jsTruthy connector then some (jsToStr msg ++ [','] ++ connector.getD [])
  else msg

/-- The injected `ERRORCODES` dictionary (`config.js` is an external
collaborator of the specified core and is not part of the sources; the
functions below are parametric in it). -/
abbrev ErrTable := Str → Option Str

/-- JS `msg || fallback` where `msg` may be `undefined` or `""` (both falsy). -/
def jsOrStr (o : Option Str) (d : Str) : Str :=
  match o with
  | some v => if v.isEmpty then d else v
  | none => d

/-- A `ResponseError` (its optional host/port fields, filled from the options
object, carry no information used by any claim and are omitted). -/
structure RespError where
  message : Str
  code : Str
deriving DecidableEq, Repr

/-- `checkErrorResponse` of the newer `models.js`: recognise `ERR_` (iTach,
code = the three characters before `endIdx`), `ERR ` (Flex/Global Connect,
code = `substring(4).trim()`) and `unknowncommand` (GC-100, code =
`substring(14).trim()`); throwing is modelled as returning `some` error.
`MessageQueue.handleResponse` calls it with `endIdx = response.length`. -/
def checkErrorResponse (tbl : ErrTable) (response : Str) (endIdx : Nat) : Option RespError :=
  if (str "ERR_").isPrefixOf response then
    some ⟨jsOrStr (tbl ((response.take endIdx).drop (endIdx - 3))) (jsTrim response),
          (response.take endIdx).drop (endIdx - 3)⟩
  else if (str "ERR ").isPrefixOf response then
    some ⟨jsOrStr (tbl (jsTrim response)) (jsTrim response), jsTrim (response.drop 4)⟩
  else if (str "unknowncommand").isPrefixOf response then
    some ⟨jsOrStr (tbl (jsTrim response)) (jsTrim response), jsTrim (response.drop 14)⟩
  else none

/-! ## `src/msg_queue.js`: the `MessageQueue`

The queue is modelled as a small-step event semantics.  One `Event` is one
synchronous JavaScript execution turn entered from the event loop (a `push`
call, a `process.nextTick(#run)` callback, a complete inbound line delivered
to `handleResponse`, a timer callback, …).  `#run` is an `async` method that
contains no `await`, so its whole body — including the `finally` block that
decrements `#active` and schedules the next tick — runs synchronously inside
the step that invoked it; consequently `#active` is incremented and
decremented within a single step and no modelled state ever observes it
changed.  Promise *reactions* (the `#removeQueueItemWrapper` continuation that
removes a settled item from the list) run as microtasks after the turn; they
are modelled by the `pendingRemovals` book-keeping and the `microtaskRemove`
event.  Timer deadlines are abstracted: an armed timer may fire at any later
step.  The send-timeout timer of `timeoutPromise` only settles promises and
never invokes the send callback nor schedules a dispatcher run, and is not
needed by any claim, so it is not given an event of its own. -/

/-- One `MsgItem` of the queue. `dispatched` records whether `msgResolve` /
`msgReject` have been assigned (which happens exactly when the item is
dispatched with a nonzero send timeout); `timestamp` is `Date.now()` at
construction, i.e. at enqueue time. -/
structure QItem where
  id : Nat
  message : Str
  expected : Option Str
  processed : Bool
  dispatched : Bool
  timestamp : Int
  sendTimeout : Int
deriving DecidableEq, Repr

/-- The queue's `#options` (initialised from the `config.js` defaults; only
the two fields read by `handleResponse` are modelled). -/
structure Options where
  sendTimeout : Int
  retryInterval : Int
deriving Repr

/-- A rejection value: either a constructed `ResponseError` or — as in
`handleErrorResponse`, which passes the raw response line — a plain string. -/
inductive RejectVal where
  | err : RespError → RejectVal
  | raw : Str → RejectVal
deriving DecidableEq, Repr

/-- Observable callback invocations of one step, in program order. `send` is a
`#taskFunc` invocation from the dispatch loop `#run`; `resend` is a
`#taskFunc` invocation from a busy-retry timer; `resolveMsg`/`rejectMsg`
settle an item's inner (on-wire) promise; `resolveClient`/`rejectClient`
settle the outer promise handed to the `push` caller;
`resolveClientUndefined` is `queueItem.resolve(this.#taskFunc(...))` in the
zero-send-timeout branch (the socket write returns `undefined`);
`throwTypeError` is the `TypeError` raised by calling a `null` `msgResolve`;
`retryScheduled` records the `setTimeout` arming of a busy retry. -/
inductive Action where
  | send : Nat → Str → Action
  | resend : Nat → Str → Action
  | resolveMsg : Nat → Str → Action
  | rejectMsg : Nat → RejectVal → Action
  | resolveClient : Nat → Str → Action
  | resolveClientUndefined : Nat → Action
  | rejectClient : Nat → RejectVal → Action
  | throwTypeError : Action
  | retryScheduled : Nat → Str → Action
deriving DecidableEq, Repr

/-- The modelled queue state. `pendingTicks` counts scheduled
`process.nextTick(#run)` callbacks; `pendingRetries` the armed busy-retry
timers (item id and message, FIFO); `armedTimers` the armed queue-timeout
timers (item id and its `queueTimeout`, used only for the expiry message);
`pendingRemovals` the microtask continuations of settled inner promises that
will remove their item from the list. -/
structure QueueState where
  msgId : Nat
  list : List QItem
  active : Nat
  paused : Bool
  now : Int
  pendingTicks : Nat
  pendingRetries : List (Nat × Str)
  armedTimers : List (Nat × Int)
  pendingRemovals : List Nat
deriving DecidableEq, Repr

/-- The events that drive the queue. -/
inductive Event where
  | push : Str → Int → Int → Bool → Event
  | tick : Event
  | response : Str → Event
  | retryFire : Event
  | queueTimerFire : Nat → Event
  | microtaskRemove : Event
  | pause : Event
  | resume : Event
  | clear : Event
  | advance : Int → Event
deriving DecidableEq, Repr

/-- A fresh `MessageQueue` (public fields `#msgId = 0`, empty `#list`,
`#active = 0`, `#paused = false`), at time zero with no armed timers. -/
def initState : QueueState :=
  { msgId := 0, list := [], active := 0, paused := false, now := 0,
    pendingTicks := 0, pendingRetries := [], armedTimers := [], pendingRemovals := [] }

/-- Decimal rendering of a `Nat` (JS template-literal interpolation). -/
def strOfNat (n : Nat) : Str := (toString n).data

/-- Decimal rendering of an `Int` (JS template-literal interpolation). -/
def strOfInt (i : Int) : Str := (toString i).data

/-- Update the item with the given id in place (`MsgItem`s are mutated through
object references; message ids are unique since `#msgId` is monotone). -/
def markItem (l : List QItem) (id : Nat) (f : QItem → QItem) : List QItem :=
  l.map (fun x => if x.id = id then f x else x)

/-- `#removeItemByMsgId`: remove and return nothing beyond the list without
the first item carrying the id. -/
def removeFirstById (l : List QItem) (id : Nat) : List QItem :=
  match l with
  | [] => []
  | x :: rest => if x.id = id then rest else x :: removeFirstById rest id

/-- `#unprocessedItemCount`. -/
def unprocessedCount (l : List QItem) : Nat :=
  (l.filter (fun it => !it.processed)).length

/-- `#nextUnprocessedItem`: the first unprocessed item in queue order. -/
def nextUnprocessedItem (l : List QItem) : Option QItem :=
  l.find? (fun it => !it.processed)

/-- One synchronous execution of `#run`.  The guard returns when paused,
when another `#run` body is on the stack (`#active >= 1` — unreachable across
modelled steps, see the section comment) or when nothing is unprocessed.
Otherwise the head unprocessed item is marked processed, its queue timer is
cancelled, and either (`sendTimeout` truthy) `msgResolve`/`msgReject` are
assigned and `#taskFunc` is invoked, or (`sendTimeout` falsy) `#taskFunc` is
invoked and its `undefined` result resolves the outer promise directly.  The
`finally` block schedules one `process.nextTick(#run)`. -/
def runStep (s : QueueState) : QueueState × List Action :=
  if s.paused || decide (s.active ≥ 1) || decide (unprocessedCount s.list = 0) then (s, [])
  else
    match nextUnprocessedItem s.list with
    | none => (s, [])
    | some it =>
      if it.sendTimeout = 0 then
        ({ s with list := markItem s.list it.id (fun x => { x with processed := true }),
                  armedTimers := s.armedTimers.filter (fun t => t.1 ≠ it.id),
                  pendingTicks := s.pendingTicks + 1 },
         [Action.send it.id it.message, Action.resolveClientUndefined it.id])
      else
        ({ s with list := markItem s.list it.id
                    (fun x => { x with processed := true, dispatched := true }),
                  armedTimers := s.armedTimers.filter (fun t => t.1 ≠ it.id),
                  pendingTicks := s.pendingTicks + 1 },
         [Action.send it.id it.message])

/-- The `MsgItem` constructor: message prefix cached, expected response
computed, timers unarmed, `processed = false`, `msgResolve = msgReject = null`
(`dispatched = false`), `timestamp = Date.now()`. -/
def enqueueItem (msgId : Nat) (request : Str) (timestamp sendTimeout : Int) : QItem :=
  { id := msgId, message := request, expected := expectedResponse request,
    processed := false, dispatched := false, timestamp := timestamp, sendTimeout := sendTimeout }

/-- The tail of `push` after the duplicate check: create the `MsgItem` (arming
its queue timer), insert it at the tail — or at the head for a priority
request — and run the dispatcher synchronously. -/
def enqueueRun (s : QueueState) (msgId : Nat) (request : Str)
    (sendTimeout queueTimeout : Int) (priority : Bool) : QueueState × List Action :=
  runStep { s with
    list := if priority then enqueueItem msgId request s.now sendTimeout :: s.list
            else s.list ++ [enqueueItem msgId request s.now sendTimeout],
    armedTimers := s.armedTimers ++ [(msgId, queueTimeout)] }

/-- `push`: allocate the next message id; for a `sendir` request scan for the
first identical queued request — if it has an inner resolver, resolve it with
`"repeatir"`; if it is still unsent, `msgResolve` is `null` and the call
throws a `TypeError` before anything is enqueued.  Then (no throw) enqueue and
kick the dispatcher. -/
def pushStep (s : QueueState) (request : Str) (sendTimeout queueTimeout : Int)
    (priority : Bool) : QueueState × List Action :=
  if (str "sendir").isPrefixOf request then
    match s.list.find? (fun it => it.message = request) with
    | some it =>
      if it.dispatched then
        ((enqueueRun { s with msgId := s.msgId + 1 } (s.msgId + 1) request
            sendTimeout queueTimeout priority).1,
         Action.resolveMsg it.id (str "repeatir") ::
           (enqueueRun { s with msgId := s.msgId + 1 } (s.msgId + 1) request
             sendTimeout queueTimeout priority).2)
      else ({ s with msgId := s.msgId + 1 }, [Action.throwTypeError])
    | none => enqueueRun { s with msgId := s.msgId + 1 } (s.msgId + 1) request
        sendTimeout queueTimeout priority
  else enqueueRun { s with msgId := s.msgId + 1 } (s.msgId + 1) request
    sendTimeout queueTimeout priority

/-- The queue-timer callback armed by `push`: remove the item by id (a no-op
if it already left the queue) and reject the outer promise with
`QUEUE_TIMEOUT` (a no-op at the promise level if it already settled; the
callback itself always runs). -/
def queueTimerFireStep (s : QueueState) (id : Nat) : QueueState × List Action :=
  match s.armedTimers.find? (fun t => t.1 = id) with
  | none => (s, [])
  | some t =>
    ({ s with armedTimers := s.armedTimers.filter (fun u => u.1 ≠ id),
              list := removeFirstById s.list id },
     [Action.rejectClient id (RejectVal.err
        ⟨str "Request " ++ strOfNat id ++ str " is expired (" ++ strOfInt t.2 ++ str "ms)",
         str "QUEUE_TIMEOUT"⟩)])

/-- `clear`: shift every item off the list and reject it with `QUEUE_CLEARED`
through `msgReject` when present, else through the outer `reject`.  (The queue
timers are *not* cancelled by `clear`.) -/
def clearStep (s : QueueState) : QueueState × List Action :=
  ({ s with list := [] },
   s.list.map (fun it =>
     if it.dispatched then
       Action.rejectMsg it.id (RejectVal.err ⟨str "Message send queue cleared", str "QUEUE_CLEARED"⟩)
     else
       Action.rejectClient it.id (RejectVal.err ⟨str "Message send queue cleared", str "QUEUE_CLEARED"⟩)))

/-- `response.startsWith(item.expected)` in `#resolve`; when `expected` is
`undefined`, JS coerces it to the string `"undefined"`. -/
def matchesExpected (response : Str) (it : QItem) : Bool :=
  (jsToStr it.expected).isPrefixOf response

/-- The purge prefix of `#removeOlderRequests`:
`request.message.split(",", 2).join(",")`. -/
def removeOlderPrefix (m : Str) : Str :=
  List.intercalate (str ",") ((jsSplit ',' m).take 2)

/-- `#removeOlderRequests`: drop every item whose message starts with the
resolved request's `command,connector` prefix and whose timestamp is strictly
older (the source removes by descending index, which equals this filter). -/
def removeOlder (request : QItem) (l : List QItem) : List QItem :=
  l.filter (fun it =>
    !((removeOlderPrefix request.message).isPrefixOf it.message &&
      decide (it.timestamp < request.timestamp)))

/-- `#resolve`: take the first item whose expected prefix matches, remove it
and purge older same-prefix items; otherwise, if the response parses as a
version string, do the same with the first `getversion` request. -/
def resolveStep (l : List QItem) (response : Str) : Option (QItem × List QItem) :=
  match l.findIdx? (matchesExpected response) with
  | some i =>
    match l.get? i with
    | some it => some (it, removeOlder it (l.eraseIdx i))
    | none => none
  | none =>
    if modelFromVersion response ≠ [] then
      match l.findIdx? (fun it => (str "getversion").isPrefixOf it.message) with
      | some i =>
        match l.get? i with
        | some it => some (it, removeOlder it (l.eraseIdx i))
        | none => none
      | none => none
    else none

/-- The `stopir` loop at the head of `handleNormalResponse`: resolve — without
removing — every queued request whose message starts with
`"sendir" + response.substring(6)`, through `msgResolve` when present, else
through the outer `resolve`. -/
def stopirActions (s : QueueState) (response : Str) : List Action :=
  if (str "stopir").isPrefixOf response then
    (s.list.filter (fun it => (str "sendir" ++ response.drop 6).isPrefixOf it.message)).map
      (fun it => if it.dispatched then Action.resolveMsg it.id response
                 else Action.resolveClient it.id response)
  else []

/-- `handleNormalResponse`: the `stopir` loop above, then ordinary resolution,
which removes the matched item (and purges older same-prefix items) and
settles it through `msgResolve` when present, else through the outer
`resolve`. -/
def handleNormalResponseStep (s : QueueState) (response : Str) : QueueState × List Action :=
  match resolveStep s.list response with
  | some (it, l') =>
    ({ s with list := l' },
     stopirActions s response ++ [if it.dispatched then Action.resolveMsg it.id response
                                  else Action.resolveClient it.id response])
  | none => (s, stopirActions s response)

/-- `handleErrorResponse`: `#resolveError` simply shifts the oldest item off
the queue; when that item has an inner rejecter it is rejected with the *raw
response line string* (`request.msgReject(response)` — the extracted
`ResponseError` argument `_err` is unused); an unsent item is removed without
any rejection. -/
def handleErrorResponseStep (s : QueueState) (response : Str) : QueueState × List Action :=
  match s.list with
  | [] => (s, [])
  | it :: rest =>
    ({ s with list := rest },
     if it.dispatched then [Action.rejectMsg it.id (RejectVal.raw response)] else [])

/-- `response.startsWith("busyIR") || response.startsWith("busyir")`. -/
def isBusyResponse (response : Str) : Bool :=
  (str "busyIR").isPrefixOf response || (str "busyir").isPrefixOf response

/-- `getBusyIrRequest`: with a `busyIR,<connector>,<id>` tail, the first
queued `sendir,<connector>` request that is not the active one; without the
tail, the second-oldest `sendir` request.  The found item is *not* removed. -/
def getBusyIrRequest (l : List QItem) (response : Str) : Option QItem :=
  let parts := jsSplit ',' response
  if ¬ (parts.headD [] = str "busyIR" ∨ parts.headD [] = str "busyir") then none
  else
    match parts with
    | [_, p1, p2] =>
      ((l.filter (fun r => (str "sendir," ++ p1).isPrefixOf r.message)).find?
        (fun r => !((str "sendir," ++ p1 ++ [','] ++ p2).isPrefixOf r.message)))
    | _ =>
      (l.filter (fun r => (str "sendir").isPrefixOf r.message)).get? 1

/-- The `BUSY_IR` abort message template of `handleResponse`. -/
def busyAbortMsg (response : Str) (opts : Options) (totalTime : Int) : Str :=
  response ++ str " - aborting sendir retry, send timeout reached (interval: " ++
    strOfInt opts.retryInterval ++ str "ms, remaining: " ++
    strOfInt (opts.sendTimeout - totalTime) ++ str "ms)"

/-- `handleResponse`: first `checkErrorResponse` (a throw goes to
`handleErrorResponse`); then the busy branch — locate the corresponding
`sendir`, compute `totalTime = Date.now() - request.timestamp +
retryInterval` from the queue's own `#options`, and either reject with
`BUSY_IR` (when `totalTime + 100 > sendTimeout`, through `msgReject` when
present, else the outer `reject`) or arm a retry timer that will re-invoke
`#taskFunc` with the original message; otherwise `handleNormalResponse`. -/
def handleResponseStep (tbl : ErrTable) (opts : Options) (s : QueueState)
    (response : Str) : QueueState × List Action :=
  match checkErrorResponse tbl response response.length with
  | some _e => handleErrorResponseStep s response
  | none =>
    if isBusyResponse response then
      match getBusyIrRequest s.list response with
      | some req =>
        if s.now - req.timestamp + opts.retryInterval + 100 > opts.sendTimeout then
          (s, [if req.dispatched then
                 Action.rejectMsg req.id (RejectVal.err
                   ⟨busyAbortMsg response opts (s.now - req.timestamp + opts.retryInterval),
                    str "BUSY_IR"⟩)
               else
                 Action.rejectClient req.id (RejectVal.err
                   ⟨busyAbortMsg response opts (s.now - req.timestamp + opts.retryInterval),
                    str "BUSY_IR"⟩)])
        else
          ({ s with pendingRetries := s.pendingRetries ++ [(req.id, req.message)] },
           [Action.retryScheduled req.id req.message])
      | none => (s, [])
    else handleNormalResponseStep s response

/-- Settling an item's inner promise schedules the `#removeQueueItemWrapper`
continuation (a microtask) that removes the item from the list. -/
def innerSettledId : Action → Option Nat
  | .resolveMsg id _ => some id
  | .rejectMsg id _ => some id
  | _ => none

/-- Append the removal microtasks scheduled by a step's actions. -/
def finalize (p : QueueState × List Action) : QueueState × List Action :=
  ({ p.1 with pendingRemovals := p.1.pendingRemovals ++ p.2.filterMap innerSettledId }, p.2)

/-- One event step of the queue.  `pause` sets the flag; `resume` clears it
and schedules a dispatcher tick (`process.nextTick`); a `tick` consumes one
scheduled callback and runs the dispatcher; `retryFire` pops the oldest armed
busy-retry timer and re-invokes the send callback — with *no* pause check;
`microtaskRemove` runs one scheduled wrapper continuation; `advance` lets
`Date.now()` progress. -/
def step (tbl : ErrTable) (opts : Options) (s : QueueState) : Event → QueueState × List Action
  | .push req st qt pr => finalize (pushStep s req st qt pr)
  | .tick =>
    if s.pendingTicks = 0 then (s, [])
    else finalize (runStep { s with pendingTicks := s.pendingTicks - 1 })
  | .response line => finalize (handleResponseStep tbl opts s line)
  | .retryFire =>
    match s.pendingRetries with
    | [] => (s, [])
    | (id, m) :: rest => ({ s with pendingRetries := rest }, [Action.resend id m])
  | .queueTimerFire id => finalize (queueTimerFireStep s id)
  | .microtaskRemove =>
    match s.pendingRemovals with
    | [] => (s, [])
    | id :: rest => ({ s with pendingRemovals := rest, list := removeFirstById s.list id }, [])
  | .pause => ({ s with paused := true }, [])
  | .resume =>
    if s.paused then ({ s with paused := false, pendingTicks := s.pendingTicks + 1 }, [])
    else (s, [])
  | .clear => finalize (clearStep s)
  | .advance dt => ({ s with now := s.now + dt }, [])

/-- The per-step trace of a run: pre-state, event and emitted actions of every
step. -/
def stepTrace (tbl : ErrTable) (opts : Options) :
    QueueState → List Event → List (QueueState × Event × List Action)
  | _, [] => []
  | s, e :: es =>
    let p := step tbl opts s e
    (s, e, p.2) :: stepTrace tbl opts p.1 es

/-- All actions of a run, in order. -/
def traceActions (tbl : ErrTable) (opts : Options) (s : QueueState) (evs : List Event) :
    List Action :=
  ((stepTrace tbl opts s evs).map (fun t => t.2.2)).flatten

/-- The state after a run. -/
def finalState (tbl : ErrTable) (opts : Options) (s : QueueState) (evs : List Event) :
    QueueState :=
  evs.foldl (fun st e => (step tbl opts st e).1) s

/-- Send-callback invocations (`#taskFunc` calls): dispatches and busy
retries. -/
def isCallback : Action → Bool
  | .send _ _ => true
  | .resend _ _ => true
  | _ => false

/-- The item a send-callback invocation belongs to. -/
def callbackId : Action → Option Nat
  | .send i _ => some i
  | .resend i _ => some i
  | _ => none

/-- Does the action settle (resolve or reject, on either channel) the item
with the given id? -/
def completesId (id : Nat) : Action → Bool
  | .resolveMsg i _ => i == id
  | .rejectMsg i _ => i == id
  | .resolveClient i _ => i == id
  | .resolveClientUndefined i => i == id
  | .rejectClient i _ => i == id
  | _ => false

/-- Does `b` settle the item whose send callback `a` invoked? -/
def completesCallbackOf (a b : Action) : Bool :=
  match callbackId a with
  | some id => completesId id b
  | none => false

/-- Claim C1 as a trace property: between the send-callback invocations of two
distinct requests there is a settling action for the first one. -/
@[reducible] def SerializedOnWire (acts : List Action) : Prop :=
  ∀ i j : Fin acts.length, i.1 < j.1 →
    (callbackId (acts.get i)).isSome = true → (callbackId (acts.get j)).isSome = true →
    callbackId (acts.get i) ≠ callbackId (acts.get j) →
    ∃ k : Fin acts.length, i.1 < k.1 ∧ k.1 < j.1 ∧
      completesCallbackOf (acts.get i) (acts.get k) = true

/-- Claim C6 as a trace property: a step whose pre-state is paused emits no
send-callback invocation. -/
@[reducible] def NoSendWhilePaused (tbl : ErrTable) (opts : Options) (evs : List Event) : Prop :=
  ∀ t ∈ stepTrace tbl opts initState evs, t.1.paused = true →
    ∀ a ∈ t.2.2, isCallback a = false

/-- The empty error-code dictionary. -/
def emptyTbl : ErrTable := fun _ => none

/-- An `ERRORCODES` dictionary entry modelled from the spec (§6: the
human-message table is an injected external collaborator; spec scenario S5
gives `"014" ↦ "Blaster command sent to non-blaster connector."`). -/
def tbl014 : ErrTable := fun k =>
  if k = str "014" then some (str "Blaster command sent to non-blaster connector.") else none

/-! ## Helper lemmas -/

theorem expectCons_eq_cons {c : Char} {l r : Str} (h : expectCons c l = some r) :
    l = c :: r := by
  rcases l with - | ⟨x, t⟩
  · simp [expectCons] at h
  · simp only [expectCons] at h
    split at h
    · rename_i hxc
      injection h with h
      rw [hxc, h]
    · simp at h

theorem parseKeyAt_length {p k rest : Str} (h : parseKeyAt p = some (k, rest)) :
    rest.length < p.length := by
  unfold parseKeyAt at h
  split at h
  · simp at h
  · rename_i hne
    rcases he : expectCons '=' (p.dropWhile isKeyChar) with - | r
    · rw [he] at h; simp at h
    · rw [he] at h
      simp only [Option.map_some', Option.some.injEq, Prod.mk.injEq] at h
      obtain ⟨-, rfl⟩ := h
      have h1 := expectCons_eq_cons he
      have h3 : (p.takeWhile isKeyChar).length + (p.dropWhile isKeyChar).length = p.length := by
        rw [← List.length_append, List.takeWhile_append_dropWhile]
      rcases hk : p.takeWhile isKeyChar with - | ⟨a, t⟩
      · rw [hk] at hne; simp at hne
      · rw [hk] at h3
        rw [h1] at h3
        simp only [List.length_cons] at h3
        omega

theorem parseKeyEq_length {r0 k rest : Str} (h : parseKeyEq r0 = some (k, rest)) :
    rest.length < r0.length := by
  unfold parseKeyEq at h
  rcases hd : expectCons '-' r0 with - | r1
  · rw [hd] at h
    exact parseKeyAt_length h
  · rw [hd] at h
    dsimp only at h
    have hr0 : r0 = '-' :: r1 := expectCons_eq_cons hd
    rcases h1 : parseKeyAt r1 with - | ⟨k1, rest1⟩
    · rw [h1] at h
      simp only [Option.orElse, Option.none_orElse] at h
      exact parseKeyAt_length h
    · rw [h1] at h
      simp only [Option.orElse, Option.some_orElse, Option.some.injEq] at h
      have := parseKeyAt_length h1
      cases h
      rw [hr0]
      simp only [List.length_cons]
      omega

theorem parseVal_length {rest v after : Str} (h : parseVal rest = some (v, after)) :
    after.length < rest.length := by
  unfold parseVal at h
  split at h
  · simp at h
  · rename_i hne
    rcases he : expectCons '>' (rest.dropWhile isValChar) with - | r
    · rw [he] at h; simp at h
    · rw [he] at h
      simp only [Option.map_some', Option.some.injEq, Prod.mk.injEq] at h
      obtain ⟨-, rfl⟩ := h
      have h1 := expectCons_eq_cons he
      have h3 : (rest.takeWhile isValChar).length + (rest.dropWhile isValChar).length
          = rest.length := by
        rw [← List.length_append, List.takeWhile_append_dropWhile]
      rcases hk : rest.takeWhile isValChar with - | ⟨a, t⟩
      · rw [hk] at hne; simp at hne
      · rw [hk] at h3
        rw [h1] at h3
        simp only [List.length_cons] at h3
        omega

theorem tupleAt_length {l : Str} {kv : Str × Str} {after : Str}
    (h : tupleAt l = some (kv, after)) : after.length < l.length := by
  unfold tupleAt at h
  rcases hc : expectCons '<' l with - | r0
  · rw [hc] at h; simp at h
  · rw [hc] at h
    simp only [Option.some_bind] at h
    rcases hk : parseKeyEq r0 with - | kr
    · rw [hk] at h; simp at h
    · rw [hk] at h
      simp only [Option.some_bind] at h
      rcases hv : parseVal kr.2 with - | va
      · rw [hv] at h; simp at h
      · rw [hv] at h
        simp only [Option.map_some', Option.some.injEq, Prod.mk.injEq] at h
        obtain ⟨-, rfl⟩ := h
        have e1 := expectCons_eq_cons hc
        have e2 := @parseKeyEq_length r0 kr.1 kr.2 (by rw [hk])
        have e3 := @parseVal_length kr.2 va.1 va.2 (by rw [hv])
        rw [e1]
        simp only [List.length_cons]
        omega


theorem isPrefixOf_iff {l₁ l₂ : Str} : l₁.isPrefixOf l₂ = true ↔ l₁ <+: l₂ :=
  List.isPrefixOf_iff_prefix

theorem mapGet_eq_some {m : List (Str × Str)} {k v : Str} (h : mapGet m k = some v) :
    ∃ p ∈ m, p.1 = k := by
  unfold mapGet at h
  rcases hf : m.find? (fun p => p.1 = k) with - | p
  · rw [hf] at h; simp at h
  · refine ⟨p, List.mem_of_find?_eq_some hf, ?_⟩
    have := List.find?_some hf
    simpa using this

/-- Every key of `Models` either starts with one of `710-1` … `710-4`, or does
not start with `710-` at all (the GC-100 keys). -/
theorem models_key_shape : ∀ p ∈ Models,
    ((str "710-1").isPrefixOf p.1 || (str "710-2").isPrefixOf p.1 ||
     (str "710-3").isPrefixOf p.1 || (str "710-4").isPrefixOf p.1) = true ∨
    (str "710-").isPrefixOf p.1 = false := by decide

/-- If a version string carries one of the recognised prefixes, its product
family is not `Unknown`. -/
theorem family_ne_unknown {v : Str}
    (h : (str "710-1").isPrefixOf v = true ∨ (str "710-2").isPrefixOf v = true ∨
         (str "710-3").isPrefixOf v = true ∨ (str "710-4").isPrefixOf v = true ∨
         (str "version,").isPrefixOf v = true) :
    productFamilyFromVersion v ≠ str "Unknown" := by
  unfold productFamilyFromVersion
  split
  · decide
  · split
    · decide
    · split
      · decide
      · split
        · decide
        · rename_i h1 h2 h3 h4
          simp only [Bool.or_eq_true, not_or] at h2
          rcases h with h | h | h | h | h <;> simp_all

/-! ## Claim C9 -/

/-- **C9** (confirmed). For every version string `v`, if `modelFromVersion v`
returns a non-empty model name then `productFamilyFromVersion v` does not
return `ProductFamily.UNKNOWN`: every `Models` key reachable through the
`710-` branch carries a `710-1`…`710-4` prefix, and the `version,` branch maps
to the GC-100 family. -/
theorem claim_C9 (v : Str) (h : modelFromVersion v ≠ []) :
    productFamilyFromVersion v ≠ str "Unknown" := by
  simp only [modelFromVersion] at h
  by_cases h710 : (str "710-").isPrefixOf v = true
  · rw [if_pos h710] at h
    rcases hm : mapGet Models (v.take 9) with - | m
    · rw [hm] at h; simp at h
    · obtain ⟨p, hpmem, hpk⟩ := mapGet_eq_some hm
      have hpv : p.1 <+: v := by rw [hpk]; exact List.take_prefix 9 v
      have h710' : (str "710-") <+: v := isPrefixOf_iff.mp h710
      have h710k : (str "710-").isPrefixOf p.1 = true := by
        rw [isPrefixOf_iff, hpk]
        obtain ⟨t, rfl⟩ := h710'
        have h9 : (9 : Nat) = (str "710-").length + 5 := by decide
        rw [h9, List.take_append]
        exact List.prefix_append _ _
      rcases models_key_shape p hpmem with hdisj | hfalse
      · apply family_ne_unknown
        simp only [Bool.or_eq_true] at hdisj
        rcases hdisj with ((h1 | h1) | h1) | h1
        · exact Or.inl (isPrefixOf_iff.mpr ((isPrefixOf_iff.mp h1).trans hpv))
        · exact Or.inr (Or.inl (isPrefixOf_iff.mpr ((isPrefixOf_iff.mp h1).trans hpv)))
        · exact Or.inr (Or.inr (Or.inl (isPrefixOf_iff.mpr ((isPrefixOf_iff.mp h1).trans hpv))))
        · exact Or.inr (Or.inr (Or.inr (Or.inl
            (isPrefixOf_iff.mpr ((isPrefixOf_iff.mp h1).trans hpv)))))
      · rw [h710k] at hfalse; exact absurd hfalse (by simp)
  · rw [if_neg h710] at h
    by_cases hver : (str "version,").isPrefixOf v = true
    · exact family_ne_unknown (Or.inr (Or.inr (Or.inr (Or.inr hver))))
    · rw [if_neg hver] at h
      simp at h

/-- Witness for C9 at the iTach IP2IR version string. -/
theorem claim_C9_witness :
    modelFromVersion (str "710-1005-05") ≠ [] ∧
      productFamilyFromVersion (str "710-1005-05") ≠ str "Unknown" :=
  ⟨by decide, claim_C9 (str "710-1005-05") (by decide)⟩

/-! ## Claim C10 -/

theorem expectCons_cons_self (c : Char) (r : Str) : expectCons c (c :: r) = some r := by
  simp [expectCons]

theorem takeWhile_append_all {p : Char → Bool} {l₁ : Str} (l₂ : Str)
    (h : ∀ x ∈ l₁, p x = true) :
    (l₁ ++ l₂).takeWhile p = l₁ ++ l₂.takeWhile p := by
  induction l₁ with
  | nil => simp
  | cons a t ih =>
    have ha : p a = true := h a (by simp)
    simp only [List.cons_append, List.takeWhile_cons, ha, if_true, List.cons.injEq, true_and]
    exact ih (fun x hx => h x (by simp [hx]))

theorem dropWhile_append_all {p : Char → Bool} {l₁ : Str} (l₂ : Str)
    (h : ∀ x ∈ l₁, p x = true) :
    (l₁ ++ l₂).dropWhile p = l₂.dropWhile p := by
  induction l₁ with
  | nil => simp
  | cons a t ih =>
    simp only [List.cons_append, List.dropWhile_cons, h a (by simp), if_true]
    exact ih (fun x hx => h x (by simp [hx]))

/-- Evaluation of the device regex on a well-formed decomposition. -/
theorem deviceRegexMatch_of_decomp {d1 d2 w : Str}
    (h1 : d1 ≠ []) (h1d : d1.all isDigitChar = true)
    (h2 : d2 ≠ []) (h2d : d2.all isDigitChar = true)
    (h3 : w ≠ []) (h3w : w.all isWordChar = true) :
    deviceRegexMatch (d1 ++ ',' :: (d2 ++ ' ' :: w)) = some (d1, d2, w) := by
  have hd1 : ∀ x ∈ d1, isDigitChar x = true := fun x hx => by
    have := List.all_eq_true.mp h1d x hx; simpa using this
  have hd2 : ∀ x ∈ d2, isDigitChar x = true := fun x hx => by
    have := List.all_eq_true.mp h2d x hx; simpa using this
  have e1 : (d1 ++ ',' :: (d2 ++ ' ' :: w)).takeWhile isDigitChar = d1 := by
    rw [takeWhile_append_all _ hd1]
    simp [List.takeWhile_cons, isDigitChar]
  have e2 : (d1 ++ ',' :: (d2 ++ ' ' :: w)).dropWhile isDigitChar = ',' :: (d2 ++ ' ' :: w) := by
    rw [dropWhile_append_all _ hd1]
    simp [List.dropWhile_cons, isDigitChar]
  have e3 : (d2 ++ ' ' :: w).takeWhile isDigitChar = d2 := by
    rw [takeWhile_append_all _ hd2]
    simp [List.takeWhile_cons, isDigitChar]
  have e4 : (d2 ++ ' ' :: w).dropWhile isDigitChar = ' ' :: w := by
    rw [dropWhile_append_all _ hd2]
    simp [List.dropWhile_cons, isDigitChar]
  unfold deviceRegexMatch
  rw [e2, expectCons_cons_self]
  simp only [Option.some_bind]
  rw [e4, expectCons_cons_self]
  simp only [Option.some_bind]
  rw [e1, e3]
  rw [if_pos ⟨h1, h2, h3, h3w⟩]

/-- Completeness of the device regex: a successful match decomposes the line. -/
theorem deviceRegexMatch_eq_some {l d1 d2 w : Str}
    (h : deviceRegexMatch l = some (d1, d2, w)) :
    l = d1 ++ ',' :: (d2 ++ ' ' :: w) ∧ d1 ≠ [] ∧ d1.all isDigitChar = true ∧
      d2 ≠ [] ∧ d2.all isDigitChar = true ∧ w ≠ [] ∧ w.all isWordChar = true := by
  unfold deviceRegexMatch at h
  rcases hc : expectCons ',' (l.dropWhile isDigitChar) with - | r2
  · rw [hc] at h; simp at h
  · rw [hc] at h
    simp only [Option.some_bind] at h
    rcases hs : expectCons ' ' (r2.dropWhile isDigitChar) with - | w'
    · rw [hs] at h; simp at h
    · rw [hs] at h
      simp only [Option.some_bind] at h
      split at h
      · rename_i hcond
        obtain ⟨hne1, hne2, hne3, hall3⟩ := hcond
        simp only [Option.some.injEq, Prod.mk.injEq] at h
        obtain ⟨rfl, rfl, rfl⟩ := h
        have e2 := expectCons_eq_cons hc
        have e4 := expectCons_eq_cons hs
        refine ⟨?_, hne1, ?_, hne2, ?_, hne3, hall3⟩
        · symm
          rw [← e4, List.takeWhile_append_dropWhile, ← e2, List.takeWhile_append_dropWhile]
        · exact List.all_eq_true.mpr (fun x hx => List.mem_takeWhile_imp hx)
        · exact List.all_eq_true.mpr (fun x hx => List.mem_takeWhile_imp hx)
      · simp at h

/-- **C10 amended** (the original claim is corrected by
`claim_C10_counterexample`).  (1) A line `device,<d1>,<d2> <w>` with nonempty
digit strings `d1, d2` and a nonempty word `w` contributes exactly
`natOfDigits d2` entries with module `natOfDigits d1` and ports `1..n` when
`n ≥ 1`, and exactly one entry with port `0` when `n = 0`.  (2) A line whose
form *after stripping an optional leading `device,`* does not decompose as
`<digits>,<digits> <word>` contributes no entries.  (The stripping is the
amendment: a line `<m>,<n> <TYPE>` without the `device,` prefix also
contributes entries, contrary to the claim's last clause.) -/
theorem claim_C10_amended :
    (∀ d1 d2 w : Str, d1 ≠ [] → d1.all isDigitChar = true → d2 ≠ [] →
      d2.all isDigitChar = true → w ≠ [] → w.all isWordChar = true →
      parseDeviceLine (str "device," ++ (d1 ++ ',' :: (d2 ++ ' ' :: w))) =
        (if 0 < natOfDigits d2 then
          (List.range (natOfDigits d2)).map (fun p => ⟨natOfDigits d1, p + 1, w⟩)
         else [⟨natOfDigits d1, 0, w⟩])) ∧
    (∀ x : Str,
      (¬ ∃ d1 d2 w : Str, stripDevicePrefix x = d1 ++ ',' :: (d2 ++ ' ' :: w) ∧ d1 ≠ [] ∧
        d1.all isDigitChar = true ∧ d2 ≠ [] ∧ d2.all isDigitChar = true ∧ w ≠ [] ∧
        w.all isWordChar = true) →
      parseDeviceLine x = []) := by
  constructor
  · intro d1 d2 w h1 h1d h2 h2d h3 h3w
    have hstrip : stripDevicePrefix (str "device," ++ (d1 ++ ',' :: (d2 ++ ' ' :: w))) =
        d1 ++ ',' :: (d2 ++ ' ' :: w) := by
      unfold stripDevicePrefix
      rw [if_pos (isPrefixOf_iff.mpr (List.prefix_append _ _))]
      have h7 : (7 : Nat) = (str "device,").length := by decide
      rw [h7, List.drop_left]
    unfold parseDeviceLine
    rw [hstrip, deviceRegexMatch_of_decomp h1 h1d h2 h2d h3 h3w]
    dsimp only
    by_cases h0 : 0 < natOfDigits d2
    · rw [if_pos h0, if_pos h0]
    · rw [if_neg h0, if_neg h0, Nat.eq_zero_of_not_pos h0]
  · intro x hno
    unfold parseDeviceLine
    rcases hm : deviceRegexMatch (stripDevicePrefix x) with - | ⟨d1, d2, w⟩
    · rfl
    · exfalso
      obtain ⟨hdec, h1, h1d, h2, h2d, h3, h3w⟩ := deviceRegexMatch_eq_some hm
      exact hno ⟨d1, d2, w, hdec, h1, h1d, h2, h2d, h3, h3w⟩

/-- **C10 counterexample**: the line `1,1 SERIAL` is not of the form
`device,<m>,<n> <TYPE>` (it does not start with `device,`), yet `parseDevices`
yields an entry for it — refuting the claim's clause that lines not matching
that format contribute no entries. -/
theorem claim_C10_counterexample :
    parseDevices (str "1,1 SERIAL") = [⟨1, 1, str "SERIAL"⟩] ∧
      (str "device,").isPrefixOf (str "1,1 SERIAL") = false := by decide

/-! ## Claim C7 -/

/-- **C7** (code bug in the source). The beacon value class `[\w-.:/]` does
not admit spaces, so the tuple `<-Make=Foobar Inc>` — which the repository's
own test (`discover.test.js`, "beacon parsing returns all elements from 3rd
party devices containing spaces in values") expects to parse as
`Make ↦ "Foobar Inc"` — matches nothing: `splitBeacon` returns an *empty* map
for this beacon, against the claim that the mapping contains every
`<-key=value>` tuple with possibly-space-containing values. -/
theorem claim_C7_code_evaluation :
    splitBeacon (str "AMXB<-Make=Foobar Inc>") = some [] ∧
      (splitBeacon (str "AMXB<-Make=Foobar Inc>")).map (fun m => mapGet m (str "Make")) =
        some none := by decide

/-! ## Claim C5 -/

theorem findIdx?_append_first_true {α : Type} {p : α → Bool} {l₁ l₂ : List α} {y : α}
    (h₁ : ∀ x ∈ l₁, p x = false) (hy : p y = true) :
    (l₁ ++ y :: l₂).findIdx? p = some l₁.length := by
  rw [List.findIdx?_append, List.findIdx?_eq_none_iff.mpr h₁]
  rw [show (y :: l₂).findIdx? p = some 0 from by rw [List.findIdx?_cons, if_pos hy]]
  simp

/-- `lastIndexOf` of the delimiter on a buffer decomposed at its last
occurrence. -/
theorem jsLastIndexOf_decomp {pre suf : Str} (h : '\r' ∉ suf) :
    jsLastIndexOf '\r' (pre ++ '\r' :: suf) = (pre.length : Int) := by
  unfold jsLastIndexOf
  have hrev : (pre ++ '\r' :: suf).reverse = suf.reverse ++ '\r' :: pre.reverse := by
    rw [List.reverse_append, List.reverse_cons, List.append_assoc, List.singleton_append]
  rw [hrev, @findIdx?_append_first_true Char (· = '\r') suf.reverse pre.reverse '\r' ?h1 (by simp)]
  case h1 =>
    intro x hx
    simp only [List.mem_reverse] at hx
    simp only [decide_eq_false_iff_not]
    intro hxe
    exact h (hxe ▸ hx)
  simp only [List.length_append, List.length_cons, List.length_reverse]
  omega

theorem jsLastIndexOf_of_not_mem {l : Str} (h : '\r' ∉ l) : jsLastIndexOf '\r' l = -1 := by
  unfold jsLastIndexOf
  rw [List.findIdx?_eq_none_iff.mpr]
  intro x hx
  simp only [List.mem_reverse] at hx
  simp only [decide_eq_false_iff_not]
  intro hxe
  exact h (hxe ▸ hx)

/-- Any buffer containing the delimiter splits at its last occurrence. -/
theorem exists_last_cr {l : Str} (h : '\r' ∈ l) :
    ∃ pre suf : Str, l = pre ++ '\r' :: suf ∧ '\r' ∉ suf := by
  induction l with
  | nil => simp at h
  | cons c rest ih =>
    by_cases hr : '\r' ∈ rest
    · obtain ⟨pre, suf, heq, hns⟩ := ih hr
      exact ⟨c :: pre, suf, by rw [heq]; rfl, hns⟩
    · have hc : c = '\r' := by
        rcases List.mem_cons.mp h with h' | h'
        · exact h'.symm
        · exact absurd h' hr
      exact ⟨[], rest, by rw [hc]; rfl, hr⟩

/-- **C5 amended** (the original claim is corrected by
`claim_C5_counterexample`).  The framer emits exactly when the accumulated
buffer *contains* a `\r` (not only when it ends in one) and the device-listing
exception does not apply; the emitted frame is the portion *before the last*
`\r` — anything after it is discarded by the buffer reset — with internal
`\r` replaced by `\n` and trimmed. -/
theorem claim_C5_amended (buffer data : Str) :
    (('\r' ∉ buffer ++ data) → framerStep buffer data = (buffer ++ data, none)) ∧
    ('\r' ∈ buffer ++ data →
      (str "device,") <+: buffer ++ data → ¬ (str "endlistdevices\r") <:+ buffer ++ data →
      framerStep buffer data = (buffer ++ data, none)) ∧
    (∀ pre suf : Str, buffer ++ data = pre ++ '\r' :: suf → '\r' ∉ suf →
      (¬ (str "device,") <+: buffer ++ data ∨ (str "endlistdevices\r") <:+ buffer ++ data) →
      framerStep buffer data = ([], some (jsTrim (replaceCRwithLF pre)))) := by
  refine ⟨?_, ?_, ?_⟩
  · intro h
    simp only [framerStep]
    rw [if_pos (jsLastIndexOf_of_not_mem h)]
  · intro hmem hdev hsuf
    obtain ⟨pre, suf, heq, hns⟩ := exists_last_cr hmem
    simp only [framerStep]
    rw [if_neg (by rw [heq, jsLastIndexOf_decomp hns]; omega)]
    rw [if_pos]
    rw [Bool.and_eq_true, isPrefixOf_iff, Bool.not_eq_true', ← Bool.not_eq_true,
      List.isSuffixOf_iff_suffix]
    exact ⟨hdev, by simpa using hsuf⟩
  · intro pre suf heq hns hside
    simp only [framerStep]
    rw [heq, jsLastIndexOf_decomp hns]
    rw [if_neg (by omega)]
    rw [if_neg]
    · rw [Int.toNat_natCast, List.take_left]
    · rw [Bool.and_eq_true, isPrefixOf_iff, Bool.not_eq_true', ← Bool.not_eq_true,
        List.isSuffixOf_iff_suffix]
      rw [← heq]
      rintro ⟨hd, hs⟩
      rcases hside with hside | hside
      · exact hside hd
      · exact (by simpa using hs : ¬ _) hside

/-- **C5 counterexample**: a single chunk `abc\rdef` makes the buffer contain
a `\r` without ending in one; the framer nevertheless emits (`"abc"`) and
discards `def` — refuting "emits a complete frame exactly when the accumulated
buffer ends in `\r`". -/
theorem claim_C5_counterexample :
    framerStep [] (str "abc\rdef") = ([], some (str "abc")) ∧
      ¬ (['\r'] <:+ str "abc\rdef") := by decide

/-- Witness for the amended C5: an emission from a buffer not ending in `\r`,
and continued buffering of an incomplete device listing. -/
theorem claim_C5_witness :
    framerStep [] (str "abc\rdef") = ([] ++ str "abc\rdef", none) ∨
      framerStep [] (str "abc\rdef") = ([], some (jsTrim (replaceCRwithLF (str "abc")))) :=
  Or.inr ((claim_C5_amended [] (str "abc\rdef")).2.2 (str "abc") (str "def")
    (by decide) (by decide) (Or.inl (by decide)))

/-- Witness for the amended C10 at the lines `device,4,3 IR` and
`device,5,0 SENSOR`. -/
theorem claim_C10_witness :
    (parseDeviceLine (str "device," ++ (str "4" ++ ',' :: (str "3" ++ ' ' :: str "IR"))) =
      (if 0 < natOfDigits (str "3") then
        (List.range (natOfDigits (str "3"))).map (fun p => ⟨natOfDigits (str "4"), p + 1, str "IR"⟩)
       else [⟨natOfDigits (str "4"), 0, str "IR"⟩])) ∧
    (parseDeviceLine (str "device," ++ (str "5" ++ ',' :: (str "0" ++ ' ' :: str "SENSOR"))) =
      (if 0 < natOfDigits (str "0") then
        (List.range (natOfDigits (str "0"))).map
          (fun p => ⟨natOfDigits (str "5"), p + 1, str "SENSOR"⟩)
       else [⟨natOfDigits (str "5"), 0, str "SENSOR"⟩])) :=
  ⟨claim_C10_amended.1 (str "4") (str "3") (str "IR")
      (by decide) (by decide) (by decide) (by decide) (by decide) (by decide),
   claim_C10_amended.1 (str "5") (str "0") (str "SENSOR")
      (by decide) (by decide) (by decide) (by decide) (by decide) (by decide)⟩

/-! ## Claim C4 -/

/-- **C4** (code bug in the source). With `getstate,1:1` (older, in flight)
and `get_IR,1:2` (newer) queued, the device error line `ERR_1:1,014` removes
and rejects the oldest item while the newer one stays queued — but the
rejection value is the *raw response line string* (`msgReject(response)`), not
the extracted `ResponseError` (shown in the third conjunct: code `"014"`,
message `"Blaster command sent to non-blaster connector."`), although `push`'s
own documentation promises a thrown `ResponseError`. -/
theorem claim_C4_code_evaluation :
    traceActions tbl014 ⟨1000, 99⟩ initState
        [.push (str "getstate,1:1\r") 1000 500 false,
         .push (str "get_IR,1:2\r") 1000 500 false,
         .response (str "ERR_1:1,014")] =
      [Action.send 1 (str "getstate,1:1\r"), Action.send 2 (str "get_IR,1:2\r"),
       Action.rejectMsg 1 (RejectVal.raw (str "ERR_1:1,014"))] ∧
    (finalState tbl014 ⟨1000, 99⟩ initState
        [.push (str "getstate,1:1\r") 1000 500 false,
         .push (str "get_IR,1:2\r") 1000 500 false,
         .response (str "ERR_1:1,014")]).list.map (fun it => it.id) = [2] ∧
    checkErrorResponse tbl014 (str "ERR_1:1,014") (str "ERR_1:1,014").length =
      some ⟨str "Blaster command sent to non-blaster connector.", str "014"⟩ := by decide

/-! ## Claim C1 -/

/-- **C1 counterexample**: two bare `push` calls dispatch *both* requests —
the second send-callback invocation happens with no resolution, rejection or
timeout of the first request in between (`#run` holds `#active` only for its
own synchronous body), refuting at-most-one-in-flight. -/
theorem claim_C1_counterexample :
    traceActions emptyTbl ⟨1000, 99⟩ initState
        [.push (str "getversion\r") 1000 500 false,
         .push (str "getdevices\r") 1000 500 false] =
      [Action.send 1 (str "getversion\r"), Action.send 2 (str "getdevices\r")] ∧
    ¬ SerializedOnWire (traceActions emptyTbl ⟨1000, 99⟩ initState
        [.push (str "getversion\r") 1000 500 false,
         .push (str "getdevices\r") 1000 500 false]) := by
  constructor
  · decide
  · decide

theorem finalize_snd (p : QueueState × List Action) : (finalize p).2 = p.2 := rfl

theorem finalize_list (p : QueueState × List Action) : (finalize p).1.list = p.1.list := rfl

theorem finalize_paused (p : QueueState × List Action) : (finalize p).1.paused = p.1.paused := rfl

theorem finalize_pendingRetries (p : QueueState × List Action) :
    (finalize p).1.pendingRetries = p.1.pendingRetries := rfl

/-- The dispatch loop invokes the send callback at most once per run. -/
theorem runStep_callbacks (s : QueueState) :
    ((runStep s).2.filter isCallback).length ≤ 1 := by
  unfold runStep
  split
  · simp
  · split
    · simp
    · split <;> simp [isCallback]

/-- `runStep` does nothing when the queue is paused. -/
theorem runStep_paused {s : QueueState} (h : s.paused = true) : runStep s = (s, []) := by
  unfold runStep
  rw [if_pos (by rw [h]; rfl)]

/-- The `stopir` loop emits only promise settlements. -/
theorem stopirActions_no_callback (s : QueueState) (r : Str) :
    ∀ a ∈ stopirActions s r, isCallback a = false := by
  unfold stopirActions
  split
  · intro a ha
    obtain ⟨it, -, rfl⟩ := List.mem_map.mp ha
    split <;> rfl
  · simp

/-- `handleNormalResponse` emits only promise settlements, never a send
callback. -/
theorem handleNormalResponseStep_no_callback (s : QueueState) (r : Str) :
    ∀ a ∈ (handleNormalResponseStep s r).2, isCallback a = false := by
  unfold handleNormalResponseStep
  split
  · rename_i it l' heq
    intro a ha
    simp only [List.mem_append] at ha
    rcases ha with ha | ha
    · exact stopirActions_no_callback s r a ha
    · simp only [List.mem_singleton] at ha
      subst ha
      split <;> rfl
  · exact stopirActions_no_callback s r

/-- `handleResponse` itself never invokes the send callback (a busy retry
only *arms* a timer; the send happens when the timer fires). -/
theorem handleResponseStep_no_callback (tbl : ErrTable) (opts : Options) (s : QueueState)
    (r : Str) : ∀ a ∈ (handleResponseStep tbl opts s r).2, isCallback a = false := by
  unfold handleResponseStep
  split
  · unfold handleErrorResponseStep
    split
    · simp
    · split
      · intro a ha
        simp only [List.mem_singleton] at ha
        subst ha; rfl
      · simp
  · split
    · split
      · split
        · intro a ha
          simp only [List.mem_singleton] at ha
          subst ha
          split <;> rfl
        · intro a ha
          simp only [List.mem_singleton] at ha
          subst ha; rfl
      · simp
    · exact handleNormalResponseStep_no_callback s r

/-- `clear` only rejects; it never invokes the send callback. -/
theorem clearStep_no_callback (s : QueueState) :
    ∀ a ∈ (clearStep s).2, isCallback a = false := by
  unfold clearStep
  intro a ha
  obtain ⟨it, -, rfl⟩ := List.mem_map.mp ha
  split <;> rfl

/-- **C1 amended** (the original claim is corrected by
`claim_C1_counterexample`).  The `#active` guard serialises send-callback
invocations only *within* one synchronous step: every event step invokes the
send callback at most once.  It does not wait for the in-flight request —
`#active` is incremented and decremented inside the same synchronous `#run`
body (there is no `await` in `#run`), so the very next dispatcher tick
dispatches the next queued request before the previous one is resolved,
rejected or timed out, as `claim_C1_counterexample` exhibits. -/
theorem claim_C1_amended (tbl : ErrTable) (opts : Options) (s : QueueState) (e : Event) :
    (((step tbl opts s e).2.filter isCallback).length ≤ 1) := by
  cases e with
  | push req st qt pr =>
    rw [step, finalize_snd]
    unfold pushStep
    split
    · split
      · rename_i it heq
        split
        · dsimp only
          rw [List.filter_cons]
          rw [show isCallback (Action.resolveMsg it.id (str "repeatir")) = false from rfl]
          rw [if_neg (by simp)]
          unfold enqueueRun
          exact runStep_callbacks _
        · simp [isCallback]
      · unfold enqueueRun; exact runStep_callbacks _
    · unfold enqueueRun; exact runStep_callbacks _
  | tick =>
    rw [step]
    split
    · simp
    · rw [finalize_snd]; exact runStep_callbacks _
  | response line =>
    rw [step, finalize_snd]
    have h := handleResponseStep_no_callback tbl opts s line
    rw [List.filter_eq_nil_iff.mpr (by intro a ha; simp [h a ha])]
    simp
  | retryFire =>
    rw [step]
    split
    · simp
    · simp [isCallback]
  | queueTimerFire id =>
    rw [step, finalize_snd]
    unfold queueTimerFireStep
    split
    · simp
    · simp [isCallback]
  | microtaskRemove =>
    rw [step]
    split <;> simp
  | pause => simp [step]
  | resume =>
    rw [step]
    split <;> simp
  | clear =>
    rw [step, finalize_snd]
    have h := clearStep_no_callback s
    rw [List.filter_eq_nil_iff.mpr (by intro a ha; simp [h a ha])]
    simp
  | advance dt => simp [step]

/-! ## Claim C6 -/

/-- **C6 counterexample**: a `sendir` dispatched and answered with
`busyIR,1:1,1` arms a retry timer; the queue is then paused, and the timer
fires while paused — `setTimeout(() => that.#taskFunc(request.message), …)`
has no pause check — so the send callback *is* invoked between `pause()` and
the next `resume()`. -/
theorem claim_C6_counterexample :
    ¬ NoSendWhilePaused emptyTbl ⟨10000, 99⟩
        [.push (str "sendir,1:1,2,38000\r") 1000 500 false,
         .response (str "busyIR,1:1,1"), .pause, .retryFire] := by decide

/-- **C6 amended** (the original claim is corrected by
`claim_C6_counterexample`).  While the queue is paused, neither `push` nor the
dispatch loop nor response handling invokes the send callback — the only step
that can invoke it between `pause()` and the next `resume()` is the firing of
a busy-retry timer, whose callback `that.#taskFunc(request.message)` carries
no pause check. -/
theorem claim_C6_amended (tbl : ErrTable) (opts : Options) (s : QueueState) (e : Event)
    (hp : s.paused = true) :
    ∀ a ∈ (step tbl opts s e).2, isCallback a = true → e = Event.retryFire := by
  cases e with
  | push req st qt pr =>
    rw [step, finalize_snd]
    unfold pushStep
    have hrun : ∀ s' : QueueState, s'.paused = true →
        ∀ a ∈ (enqueueRun s' (s'.msgId) req st qt pr).2, isCallback a = true →
          Event.push req st qt pr = Event.retryFire := by
      intro s' hp' a ha
      unfold enqueueRun at ha
      rw [runStep_paused (by exact hp')] at ha
      simp at ha
    split
    · split
      · rename_i it heq
        split
        · dsimp only
          intro a ha hc
          rw [List.mem_cons] at ha
          rcases ha with rfl | ha
          · exact absurd hc (by simp [isCallback])
          · exact hrun { s with msgId := s.msgId + 1 } hp a ha hc
        · intro a ha hc
          simp only [List.mem_singleton] at ha
          subst ha
          exact absurd hc (by simp [isCallback])
      · exact hrun { s with msgId := s.msgId + 1 } hp
    · exact hrun { s with msgId := s.msgId + 1 } hp
  | tick =>
    rw [step]
    split
    · simp
    · rw [finalize_snd, runStep_paused (by exact hp)]
      simp
  | response line =>
    rw [step, finalize_snd]
    intro a ha hc
    exact absurd hc (by simp [handleResponseStep_no_callback tbl opts s line a ha])
  | retryFire => intro a ha hc; rfl
  | queueTimerFire id =>
    rw [step, finalize_snd]
    unfold queueTimerFireStep
    split
    · simp
    · intro a ha hc
      simp only [List.mem_singleton] at ha
      subst ha
      exact absurd hc (by simp [isCallback])
  | microtaskRemove =>
    rw [step]
    split <;> simp
  | pause => simp [step]
  | resume =>
    rw [step]
    split <;> simp
  | clear =>
    rw [step, finalize_snd]
    intro a ha hc
    exact absurd hc (by simp [clearStep_no_callback s a ha])
  | advance dt => simp [step]

/-- Witness for the amended C6: a retry timer armed before the pause fires
while paused; the theorem confirms the only callback-emitting event in that
state is `retryFire`. -/
theorem claim_C6_witness :
    ({ initState with paused := true, pendingRetries := [(1, str "sendir,1:1,2,38000\r")] } : QueueState).paused = true ∧
    (∀ a ∈ (step emptyTbl ⟨1000, 99⟩ { initState with paused := true, pendingRetries := [(1, str "sendir,1:1,2,38000\r")] } Event.retryFire).2,
      isCallback a = true → Event.retryFire = Event.retryFire) :=
  ⟨rfl, claim_C6_amended emptyTbl ⟨1000, 99⟩ { initState with paused := true, pendingRetries := [(1, str "sendir,1:1,2,38000\r")] } Event.retryFire rfl⟩

/-! ## Claim C2 -/

/-- **C2 counterexample**: (first conjunct) with the queue paused, an
identical `sendir` really does "sit unsent in the queue" — its `msgResolve`
is still `null`, so the second `push` throws a `TypeError` instead of
synthesising `"repeatir"`, and the trace contains no `repeatir` resolution;
(second conjunct) when the identical item is in flight, `"repeatir"` *is*
synthesised but a duplicate item is nevertheless enqueued (two items with the
same request remain listed), refuting "do not enqueue a duplicate". -/
theorem claim_C2_counterexample :
    traceActions emptyTbl ⟨1000, 99⟩ initState
        [.pause, .push (str "sendir,1:1,1,38000\r") 1000 500 false,
         .push (str "sendir,1:1,1,38000\r") 1000 500 false] = [Action.throwTypeError] ∧
    (finalState emptyTbl ⟨1000, 99⟩ initState
        [.push (str "sendir,1:1,1,38000\r") 1000 500 false,
         .push (str "sendir,1:1,1,38000\r") 1000 500 false]).list.map (fun it => it.message) =
      [str "sendir,1:1,1,38000\r", str "sendir,1:1,1,38000\r"] := by decide

theorem markItem_map_proj {l : List QItem} {id : Nat} {f : QItem → QItem}
    (hf : ∀ x : QItem, (f x).id = x.id ∧ (f x).message = x.message) :
    (markItem l id f).map (fun x => (x.id, x.message)) =
      l.map (fun x => (x.id, x.message)) := by
  unfold markItem
  rw [List.map_map]
  apply List.map_congr_left
  intro x _
  by_cases h : x.id = id
  · simp [h, (hf x).1, (hf x).2]
  · simp [h]

/-- The dispatch loop changes only flags; ids and messages of the queued items
are untouched. -/
theorem runStep_list_proj (s : QueueState) :
    (runStep s).1.list.map (fun x => (x.id, x.message)) =
      s.list.map (fun x => (x.id, x.message)) := by
  unfold runStep
  split
  · rfl
  · split
    · rfl
    · split <;>
        (dsimp only; exact markItem_map_proj (fun x => ⟨rfl, rfl⟩))

/-- **C2 amended** (the original claim is corrected by
`claim_C2_counterexample`).  For a `sendir` request whose first identical
queued copy is *unsent* (`msgResolve` still `null`), `push` throws a
`TypeError` after allocating the message id, enqueueing nothing and
synthesising nothing.  When that copy has been dispatched, `push` resolves
its inner promise with `"repeatir"` — and still enqueues the new request as a
separate item (with the fresh id). -/
theorem claim_C2_amended (tbl : ErrTable) (opts : Options) (s : QueueState)
    (req : Str) (st qt : Int) (pr : Bool) (it : QItem)
    (hsend : (str "sendir").isPrefixOf req = true)
    (hfind : s.list.find? (fun x => x.message = req) = some it) :
    (it.dispatched = false →
      step tbl opts s (.push req st qt pr) =
        ({ s with msgId := s.msgId + 1 }, [Action.throwTypeError])) ∧
    (it.dispatched = true →
      (step tbl opts s (.push req st qt pr)).2.head? =
        some (Action.resolveMsg it.id (str "repeatir")) ∧
      (s.msgId + 1, req) ∈
        (step tbl opts s (.push req st qt pr)).1.list.map (fun x => (x.id, x.message))) := by
  constructor
  · intro hd
    rw [step]
    unfold pushStep
    rw [if_pos hsend, hfind]
    dsimp only
    rw [if_neg (by rw [hd]; simp)]
    unfold finalize
    simp [innerSettledId]
  · intro hd
    rw [step]
    constructor
    · rw [finalize_snd]
      unfold pushStep
      rw [if_pos hsend, hfind]
      dsimp only
      rw [if_pos hd]
      rfl
    · rw [finalize_list]
      unfold pushStep
      rw [if_pos hsend, hfind]
      dsimp only
      rw [if_pos hd]
      dsimp only
      unfold enqueueRun
      rw [runStep_list_proj]
      dsimp only
      split <;> simp [enqueueItem]

/-- Witness for the amended C2: an unsent identical `sendir` makes the second
`push` throw. -/
theorem claim_C2_witness :
    ((str "sendir").isPrefixOf (str "sendir,1:1,1,38000\r") = true) ∧
    (({ initState with msgId := 1, list := [⟨1, str "sendir,1:1,1,38000\r", expectedResponse (str "sendir,1:1,1,38000\r"), false, false, 0, 1000⟩] } : QueueState).list.find? (fun x => x.message = str "sendir,1:1,1,38000\r") = some ⟨1, str "sendir,1:1,1,38000\r", expectedResponse (str "sendir,1:1,1,38000\r"), false, false, 0, 1000⟩) ∧
    (step emptyTbl ⟨1000, 99⟩ { initState with msgId := 1, list := [⟨1, str "sendir,1:1,1,38000\r", expectedResponse (str "sendir,1:1,1,38000\r"), false, false, 0, 1000⟩] } (.push (str "sendir,1:1,1,38000\r") 1000 500 false) =
      ({ ({ initState with msgId := 1, list := [⟨1, str "sendir,1:1,1,38000\r", expectedResponse (str "sendir,1:1,1,38000\r"), false, false, 0, 1000⟩] } : QueueState) with msgId := 2 }, [Action.throwTypeError])) :=
  ⟨by decide, by decide,
    (claim_C2_amended emptyTbl ⟨1000, 99⟩
      { initState with msgId := 1, list := [⟨1, str "sendir,1:1,1,38000\r", expectedResponse (str "sendir,1:1,1,38000\r"), false, false, 0, 1000⟩] }
      (str "sendir,1:1,1,38000\r") 1000 500 false
      ⟨1, str "sendir,1:1,1,38000\r", expectedResponse (str "sendir,1:1,1,38000\r"), false, false, 0, 1000⟩
      (by decide) (by decide)).1 rfl⟩

/-! ## Claim C3 -/

/-- **C3 amended** (the original claim is corrected by
`claim_C3_counterexample`).  When a busy signal locates a queued `sendir`
item, the item is re-sent after `retryInterval` ms if and only if the elapsed
time since the item's *enqueue* timestamp (`MsgItem.timestamp`, set at
construction, not at dispatch) plus one retry interval plus the 100 ms margin
is *at most* (not strictly less than) the queue's configured send timeout;
otherwise the item is rejected with a `BUSY_IR` error; in neither case does
the handler remove the item from the queue. -/
theorem claim_C3_amended (tbl : ErrTable) (opts : Options) (s : QueueState) (line : Str)
    (req : QItem)
    (herr : checkErrorResponse tbl line line.length = none)
    (hbusy : isBusyResponse line = true)
    (hreq : getBusyIrRequest s.list line = some req) :
    (step tbl opts s (.response line)).1.list = s.list ∧
    (s.now - req.timestamp + opts.retryInterval + 100 ≤ opts.sendTimeout →
      (step tbl opts s (.response line)).2 = [Action.retryScheduled req.id req.message] ∧
      (step tbl opts s (.response line)).1.pendingRetries =
        s.pendingRetries ++ [(req.id, req.message)]) ∧
    (opts.sendTimeout < s.now - req.timestamp + opts.retryInterval + 100 →
      (step tbl opts s (.response line)).2 =
        [if req.dispatched then
           Action.rejectMsg req.id (RejectVal.err
             ⟨busyAbortMsg line opts (s.now - req.timestamp + opts.retryInterval),
              str "BUSY_IR"⟩)
         else
           Action.rejectClient req.id (RejectVal.err
             ⟨busyAbortMsg line opts (s.now - req.timestamp + opts.retryInterval),
              str "BUSY_IR"⟩)] ∧
      (step tbl opts s (.response line)).1.pendingRetries = s.pendingRetries) := by
  have hcore : handleResponseStep tbl opts s line =
      (if s.now - req.timestamp + opts.retryInterval + 100 > opts.sendTimeout then
        (s, [if req.dispatched then
               Action.rejectMsg req.id (RejectVal.err
                 ⟨busyAbortMsg line opts (s.now - req.timestamp + opts.retryInterval),
                  str "BUSY_IR"⟩)
             else
               Action.rejectClient req.id (RejectVal.err
                 ⟨busyAbortMsg line opts (s.now - req.timestamp + opts.retryInterval),
                  str "BUSY_IR"⟩)])
       else
        ({ s with pendingRetries := s.pendingRetries ++ [(req.id, req.message)] },
         [Action.retryScheduled req.id req.message])) := by
    unfold handleResponseStep
    rw [herr]
    dsimp only
    rw [if_pos hbusy, hreq]
  refine ⟨?_, ?_, ?_⟩
  · rw [step, finalize_list, hcore]
    split <;> rfl
  · intro hle
    rw [step, finalize_snd, finalize_pendingRetries, hcore,
      if_neg (not_lt.mpr hle)]
    exact ⟨rfl, rfl⟩
  · intro hgt
    rw [step, finalize_snd, finalize_pendingRetries, hcore, if_pos hgt]
    exact ⟨rfl, rfl⟩

/-- Witness for the amended C3: a dispatched `sendir` answered by
`busyIR,1:1,1` within budget is scheduled for retry and stays queued. -/
theorem claim_C3_witness :
    (checkErrorResponse emptyTbl (str "busyIR,1:1,1") (str "busyIR,1:1,1").length = none) ∧
    (isBusyResponse (str "busyIR,1:1,1") = true) ∧
    (getBusyIrRequest ({ initState with msgId := 1, list := [⟨1, str "sendir,1:1,2,38000\r", expectedResponse (str "sendir,1:1,2,38000\r"), true, true, 0, 1000⟩] } : QueueState).list (str "busyIR,1:1,1") = some ⟨1, str "sendir,1:1,2,38000\r", expectedResponse (str "sendir,1:1,2,38000\r"), true, true, 0, 1000⟩) ∧
    ((step emptyTbl ⟨1000, 99⟩ { initState with msgId := 1, list := [⟨1, str "sendir,1:1,2,38000\r", expectedResponse (str "sendir,1:1,2,38000\r"), true, true, 0, 1000⟩] } (.response (str "busyIR,1:1,1"))).1.list = ({ initState with msgId := 1, list := [⟨1, str "sendir,1:1,2,38000\r", expectedResponse (str "sendir,1:1,2,38000\r"), true, true, 0, 1000⟩] } : QueueState).list) ∧
    ((step emptyTbl ⟨1000, 99⟩ { initState with msgId := 1, list := [⟨1, str "sendir,1:1,2,38000\r", expectedResponse (str "sendir,1:1,2,38000\r"), true, true, 0, 1000⟩] } (.response (str "busyIR,1:1,1"))).2 = [Action.retryScheduled 1 (str "sendir,1:1,2,38000\r")]) := by
  refine ⟨by decide, by decide, by decide, ?_, ?_⟩
  · exact (claim_C3_amended emptyTbl ⟨1000, 99⟩
      { initState with msgId := 1, list := [⟨1, str "sendir,1:1,2,38000\r", expectedResponse (str "sendir,1:1,2,38000\r"), true, true, 0, 1000⟩] }
      (str "busyIR,1:1,1")
      ⟨1, str "sendir,1:1,2,38000\r", expectedResponse (str "sendir,1:1,2,38000\r"), true, true, 0, 1000⟩
      (by decide) (by decide) (by decide)).1
  · exact ((claim_C3_amended emptyTbl ⟨1000, 99⟩
      { initState with msgId := 1, list := [⟨1, str "sendir,1:1,2,38000\r", expectedResponse (str "sendir,1:1,2,38000\r"), true, true, 0, 1000⟩] }
      (str "busyIR,1:1,1")
      ⟨1, str "sendir,1:1,2,38000\r", expectedResponse (str "sendir,1:1,2,38000\r"), true, true, 0, 1000⟩
      (by decide) (by decide) (by decide)).2.1 (by decide)).1

/-- **C3 counterexample**: the item is pushed and dispatched at time `0` and
the busy signal arrives at time `30`, so the elapsed time since dispatch is
`30` under either reading; with `retryInterval = 50` and the queue's
`sendTimeout = 180`, the claim's condition `30 + 50 + 100 < 180` is false, so
the claim demands a `BUSY_IR` rejection — but the code compares with `>` and
schedules the re-send, which the fired retry timer then performs. -/
theorem claim_C3_counterexample :
    ¬ ((Action.resend 1 (str "sendir,1:1,2,38000\r") ∈ traceActions emptyTbl ⟨180, 50⟩ initState
        [.push (str "sendir,1:1,2,38000\r") 1000 500 false, .advance 30,
         .response (str "busyIR,1:1,1"), .retryFire]) ↔ ((30 : Int) + 50 + 100 < 180)) := by
  decide

/-! ## Claim C8 -/

theorem get?_append_middle {α : Type} (pre post : List α) (x : α) :
    (pre ++ x :: post).get? pre.length = some x := by
  induction pre with
  | nil => rfl
  | cons a t ih => simpa using ih

theorem eraseIdx_append_middle {α : Type} (pre post : List α) (x : α) :
    (pre ++ x :: post).eraseIdx pre.length = pre ++ post := by
  induction pre with
  | nil => rfl
  | cons a t ih => simp [List.eraseIdx, ih]

theorem unprocessedCount_ne_zero {l : List QItem} {it : QItem}
    (h : nextUnprocessedItem l = some it) : unprocessedCount l ≠ 0 := by
  unfold nextUnprocessedItem at h
  unfold unprocessedCount
  intro h0
  rw [List.length_eq_zero] at h0
  have hmem := List.mem_filter.mpr ⟨List.mem_of_find?_eq_some h, List.find?_some h⟩
  rw [h0] at hmem
  simp at hmem

/-- **C8** (confirmed).  When `handleResponse` processes a stop
acknowledgement `stopir,<c>` whose only expected-prefix match in the queue is
the pending `stopir` request itself (`stopIt`), and no older item shares its
purge prefix:
the only item removed is `stopIt`; the emitted actions are the resolutions of
every `sendir,<c>` item (in queue order, through `msgResolve` when
dispatched) followed by the resolution of `stopIt` — the resolved `sendir`
items all remain in the queue with their flags untouched; and the dispatcher
afterwards still invokes the send callback for the first unprocessed item (a
resolved-but-unsent `sendir` stays unprocessed and is dispatched). -/
theorem claim_C8 (s : QueueState) (c : Str) (pre post : List QItem) (stopIt : QItem)
    (hlist : s.list = pre ++ stopIt :: post)
    (hmatch : matchesExpected (str "stopir," ++ c) stopIt = true)
    (hfirst : ∀ x ∈ pre, matchesExpected (str "stopir," ++ c) x = false)
    (hnoold : ∀ x ∈ pre ++ post,
      ((removeOlderPrefix stopIt.message).isPrefixOf x.message &&
        decide (x.timestamp < stopIt.timestamp)) = false) :
    (handleNormalResponseStep s (str "stopir," ++ c)).1.list = pre ++ post ∧
    (handleNormalResponseStep s (str "stopir," ++ c)).2 =
      ((pre ++ stopIt :: post).filter
          (fun it => (str "sendir," ++ c).isPrefixOf it.message)).map
        (fun it => if it.dispatched then Action.resolveMsg it.id (str "stopir," ++ c)
                   else Action.resolveClient it.id (str "stopir," ++ c)) ++
      [if stopIt.dispatched then Action.resolveMsg stopIt.id (str "stopir," ++ c)
       else Action.resolveClient stopIt.id (str "stopir," ++ c)] ∧
    (handleNormalResponseStep s (str "stopir," ++ c)).1.paused = s.paused ∧
    (handleNormalResponseStep s (str "stopir," ++ c)).1.active = s.active ∧
    (∀ it₀ : QItem, s.paused = false → s.active = 0 →
      nextUnprocessedItem (pre ++ post) = some it₀ → it₀.sendTimeout ≠ 0 →
      (runStep (handleNormalResponseStep s (str "stopir," ++ c)).1).2 =
        [Action.send it₀.id it₀.message]) := by
  have hcore : resolveStep s.list (str "stopir," ++ c) = some (stopIt, pre ++ post) := by
    unfold resolveStep
    rw [hlist, findIdx?_append_first_true hfirst hmatch]
    dsimp only
    rw [get?_append_middle, eraseIdx_append_middle]
    dsimp only
    unfold removeOlder
    rw [List.filter_eq_self.mpr (fun a ha => by rw [hnoold a ha]; rfl)]
  have hstop : stopirActions s (str "stopir," ++ c) =
      ((pre ++ stopIt :: post).filter
          (fun it => (str "sendir," ++ c).isPrefixOf it.message)).map
        (fun it => if it.dispatched then Action.resolveMsg it.id (str "stopir," ++ c)
                   else Action.resolveClient it.id (str "stopir," ++ c)) := by
    unfold stopirActions
    rw [if_pos (by rfl), hlist]
    rw [show str "sendir" ++ (str "stopir," ++ c).drop 6 = str "sendir," ++ c from rfl]
  have hout : handleNormalResponseStep s (str "stopir," ++ c) =
      ({ s with list := pre ++ post },
       ((pre ++ stopIt :: post).filter
           (fun it => (str "sendir," ++ c).isPrefixOf it.message)).map
         (fun it => if it.dispatched then Action.resolveMsg it.id (str "stopir," ++ c)
                    else Action.resolveClient it.id (str "stopir," ++ c)) ++
       [if stopIt.dispatched then Action.resolveMsg stopIt.id (str "stopir," ++ c)
        else Action.resolveClient stopIt.id (str "stopir," ++ c)]) := by
    unfold handleNormalResponseStep
    rw [hcore]
    dsimp only
    rw [hstop]
  refine ⟨by rw [hout], by rw [hout], by rw [hout], by rw [hout], ?_⟩
  intro it₀ hpause hactive hfind hst
  rw [hout]
  unfold runStep
  dsimp only
  rw [if_neg ?grd]
  case grd =>
    rw [hpause]
    simp only [Bool.false_or, Bool.or_eq_true, decide_eq_true_eq]
    rintro (h1 | h2)
    · rw [hactive] at h1; omega
    · exact unprocessedCount_ne_zero hfind h2
  rw [hfind]
  dsimp only
  rw [if_neg hst]

/-- Witness for C8: a priority `stopir,1:1` at the head of the queue, an
in-flight `sendir,1:1,7,…` and a not-yet-dispatched `sendir,1:1,8,…`; the ack
removes only the `stopir` item, resolves both `sendir` items in place, and the
next dispatcher run sends the unsent `sendir`. -/
theorem claim_C8_witness :
    (({ initState with msgId := 3, now := 3, list := [⟨3, str "stopir,1:1\r", expectedResponse (str "stopir,1:1\r"), true, true, 2, 1000⟩, ⟨1, str "sendir,1:1,7,38000\r", expectedResponse (str "sendir,1:1,7,38000\r"), true, true, 0, 1000⟩, ⟨2, str "sendir,1:1,8,38000\r", expectedResponse (str "sendir,1:1,8,38000\r"), false, false, 1, 1000⟩] } : QueueState).list = [] ++ ⟨3, str "stopir,1:1\r", expectedResponse (str "stopir,1:1\r"), true, true, 2, 1000⟩ :: [⟨1, str "sendir,1:1,7,38000\r", expectedResponse (str "sendir,1:1,7,38000\r"), true, true, 0, 1000⟩, ⟨2, str "sendir,1:1,8,38000\r", expectedResponse (str "sendir,1:1,8,38000\r"), false, false, 1, 1000⟩]) ∧
    (matchesExpected (str "stopir," ++ str "1:1") (⟨3, str "stopir,1:1\r", expectedResponse (str "stopir,1:1\r"), true, true, 2, 1000⟩ : QItem) = true) ∧
    ((handleNormalResponseStep { initState with msgId := 3, now := 3, list := [⟨3, str "stopir,1:1\r", expectedResponse (str "stopir,1:1\r"), true, true, 2, 1000⟩, ⟨1, str "sendir,1:1,7,38000\r", expectedResponse (str "sendir,1:1,7,38000\r"), true, true, 0, 1000⟩, ⟨2, str "sendir,1:1,8,38000\r", expectedResponse (str "sendir,1:1,8,38000\r"), false, false, 1, 1000⟩] } (str "stopir," ++ str "1:1")).1.list = [] ++ [⟨1, str "sendir,1:1,7,38000\r", expectedResponse (str "sendir,1:1,7,38000\r"), true, true, 0, 1000⟩, ⟨2, str "sendir,1:1,8,38000\r", expectedResponse (str "sendir,1:1,8,38000\r"), false, false, 1, 1000⟩]) ∧
    ((runStep (handleNormalResponseStep { initState with msgId := 3, now := 3, list := [⟨3, str "stopir,1:1\r", expectedResponse (str "stopir,1:1\r"), true, true, 2, 1000⟩, ⟨1, str "sendir,1:1,7,38000\r", expectedResponse (str "sendir,1:1,7,38000\r"), true, true, 0, 1000⟩, ⟨2, str "sendir,1:1,8,38000\r", expectedResponse (str "sendir,1:1,8,38000\r"), false, false, 1, 1000⟩] } (str "stopir," ++ str "1:1")).1).2 =
      [Action.send 2 (str "sendir,1:1,8,38000\r")]) :=
  ⟨by decide, by decide,
   (claim_C8 { initState with msgId := 3, now := 3, list := [⟨3, str "stopir,1:1\r", expectedResponse (str "stopir,1:1\r"), true, true, 2, 1000⟩, ⟨1, str "sendir,1:1,7,38000\r", expectedResponse (str "sendir,1:1,7,38000\r"), true, true, 0, 1000⟩, ⟨2, str "sendir,1:1,8,38000\r", expectedResponse (str "sendir,1:1,8,38000\r"), false, false, 1, 1000⟩] } (str "1:1") [] [⟨1, str "sendir,1:1,7,38000\r", expectedResponse (str "sendir,1:1,7,38000\r"), true, true, 0, 1000⟩, ⟨2, str "sendir,1:1,8,38000\r", expectedResponse (str "sendir,1:1,8,38000\r"), false, false, 1, 1000⟩] ⟨3, str "stopir,1:1\r", expectedResponse (str "stopir,1:1\r"), true, true, 2, 1000⟩
      (by decide) (by decide) (by decide) (by decide)).1,
   (claim_C8 { initState with msgId := 3, now := 3, list := [⟨3, str "stopir,1:1\r", expectedResponse (str "stopir,1:1\r"), true, true, 2, 1000⟩, ⟨1, str "sendir,1:1,7,38000\r", expectedResponse (str "sendir,1:1,7,38000\r"), true, true, 0, 1000⟩, ⟨2, str "sendir,1:1,8,38000\r", expectedResponse (str "sendir,1:1,8,38000\r"), false, false, 1, 1000⟩] } (str "1:1") [] [⟨1, str "sendir,1:1,7,38000\r", expectedResponse (str "sendir,1:1,7,38000\r"), true, true, 0, 1000⟩, ⟨2, str "sendir,1:1,8,38000\r", expectedResponse (str "sendir,1:1,8,38000\r"), false, false, 1, 1000⟩] ⟨3, str "stopir,1:1\r", expectedResponse (str "stopir,1:1\r"), true, true, 2, 1000⟩
      (by decide) (by decide) (by decide) (by decide)).2.2.2.2
     ⟨2, str "sendir,1:1,8,38000\r", expectedResponse (str "sendir,1:1,8,38000\r"), false, false, 1, 1000⟩ (by decide) (by decide) (by decide) (by decide)⟩

end GcLib
